import Mathlib

/-!
Verification of the ALPHA chat relay core against its sources.

Server side (backend/src/server.js): the message sanitizer
(sanitizeMessages), the numeric-option clamp (clampNumber), the
upstream-failure classifier (buildClientErrorFromOpenRouter) and the
request composition performed by the POST /api/chat handler.

Client side (the unnamed React file): the follow-up suggestion
extractor (extractFollowUpSuggestions).

JavaScript values that the code inspects dynamically are embedded as
small inductive types recording exactly the distinctions the source
makes (string / null-or-undefined / other, truthiness, NaN).  Strings
are Lean strings; a character stands for one JavaScript character and
the character class of the regular-expression class backslash-s and of
trim is embedded as Char.isWhitespace.  JavaScript numbers are embedded
as rationals with an explicit NaN marker.
-/

/-- Character class used for trim and for the list-marker patterns. -/
def isJsWs (c : Char) : Bool := c.isWhitespace

/-- JavaScript s.trim(): strip leading and trailing whitespace. -/
def jsTrim (s : String) : String :=
  ⟨(s.data.dropWhile isJsWs).rdropWhile isJsWs⟩

/-- JavaScript s.slice(0, n) on a string: the first n characters. -/
def jsSlice (s : String) (n : Nat) : String := ⟨s.data.take n⟩

/-- JavaScript s.toLowerCase() (ASCII letters, per Char.toLower). -/
def jsToLower (s : String) : String := ⟨s.data.map Char.toLower⟩

/-- JavaScript s.startsWith(pre). -/
def jsStartsWith (s pre : String) : Bool := pre.data.isPrefixOf s.data

/-- JavaScript s.split(given one newline separator). -/
def jsSplitLines (s : String) : List String :=
  (s.data.splitOn '\n').map (fun l => String.mk l)

/-- A dynamically-typed JavaScript value as far as the relay inspects
one: a string, a truthy non-string (object), or null/undefined and
every other falsy-or-non-string case the code treats alike. -/
inductive JVal
  | undef
  | str (s : String)
  | obj
deriving DecidableEq

/-- JavaScript truthiness for the values of JVal (an empty string is
falsy, an object is truthy, undefined/null are falsy). -/
def jTruthy : JVal → Bool
  | .undef => false
  | .str s => s != ""
  | .obj => true

/-- JavaScript a or-else b (the binary pipe-pipe operator). -/
def jsOr (a b : JVal) : JVal := if jTruthy a then a else b

/-- Roles accepted by the relay (the allowedRoles set in server.js). -/
inductive Role
  | system
  | user
  | assistant
deriving DecidableEq, BEq

/-- The role field of an incoming entry: either one of the three
allowed role strings, or any other value (coerced to user). -/
inductive RoleField
  | valid (r : Role)
  | invalid
deriving DecidableEq

/-- The content field of an incoming entry.  A non-null non-string
value is characterized by what String(content) yields for it: some
string, or none when the conversion throws. -/
inductive ContentField
  | cStr (s : String)
  | cNull
  | cOther (coerced : Option String)
deriving DecidableEq

/-- One element of the raw messages array: either not an object
(skipped by the loop) or an object with a role and a content field. -/
inductive RawEntry
  | notObject
  | entry (role : RoleField) (content : ContentField)
deriving DecidableEq

/-- The raw messages value of the request body: an array or anything
else (treated as empty by sanitizeMessages). -/
inductive RawMessages
  | notArray
  | array (entries : List RawEntry)
deriving DecidableEq

/-- A sanitized chat turn. -/
structure ChatTurn where
  role : Role
  content : String
deriving DecidableEq

def MAX_MESSAGES : Nat := 50

def MAX_CHARS : Nat := 4000

/-- Body of the sanitization loop in sanitizeMessages, for one entry of
the (already last-50-bounded) array; none encodes the continue paths. -/
def sanitizeEntry : RawEntry → Option ChatTurn
  | .notObject => none
  | .entry rf c =>
    let role : Role := match rf with
      | .valid r => r
      | .invalid => Role.user
    let content? : Option String := match c with
      | .cStr s => some s
      | .cNull => none
      | .cOther o => o
    match content? with
    | none => none
    | some content =>
      let normalized := jsTrim content
      if normalized = "" then none
      else
        let limited :=
          if normalized.length > MAX_CHARS then jsSlice normalized MAX_CHARS
          else normalized
        some ⟨role, limited⟩

/-- sanitizeMessages from server.js: keep the last 50 entries
(Array.prototype.slice with argument minus 50 is List.rtake), then run
the per-entry loop, collecting the surviving turns in order. -/
def sanitizeMessages : RawMessages → List ChatTurn
  | .notArray => []
  | .array raw => (raw.rtake MAX_MESSAGES).filterMap sanitizeEntry

/-- A value supplied for one of the numeric options: not a number at
all, the number NaN, or an actual (finite) number. -/
inductive NumInput
  | notNumber
  | nan
  | num (q : ℚ)
deriving DecidableEq

/-- clampNumber from server.js, on rationals-with-NaN. -/
def clampNumber (value : NumInput) (min max : ℚ) : Option ℚ :=
  match value with
  | .notNumber => none
  | .nan => none
  | .num v => if v < min then some min else if v > max then some max else some v

/-- The failure information inspected by the classifier: the optional
HTTP status of the upstream response, the provider error payload
(err.response.data.error), the error object message, and the error
code string used to recognize timeouts. -/
structure UpstreamFailure where
  status : Option Nat
  dataError : JVal
  errMessage : JVal
  code : Option String
deriving DecidableEq

/-- JavaScript truthiness of the status field (an absent status and a
status equal to zero are both falsy). -/
def statusTruthy : Option Nat → Bool
  | none => false
  | some n => n != 0

/-- buildClientErrorFromOpenRouter from server.js: maps an upstream
failure to the (statusCode, message) pair returned to the client. -/
def buildClientErrorFromOpenRouter (err : UpstreamFailure) : Nat × String :=
  let rawMessage := jsOr err.dataError (jsOr err.errMessage (.str "Unknown error"))
  if !statusTruthy err.status then
    if err.code == some ("ECONNABORTED") then
      (504, "The AI took too long to respond. Please try again.")
    else
      (502, "Unable to reach the AI service. Please try again in a moment.")
  else
    let status := err.status.getD 0
    if status == 401 || status == 403 then
      (500, "The AI backend is not authorized. Please contact the administrator.")
    else if status == 429 then
      (429, "The AI is receiving too many requests. Please slow down and try again shortly.")
    else if 500 ≤ status then
      (502, "The AI provider is having an issue. Please try again later.")
    else
      (status, match rawMessage with
        | .str m => m
        | _ => "Request failed")

/-- The fixed response-formatting instruction appended to the system
prompt (suggestionInstructions in server.js). -/
def suggestionInstructions : String :=
  "When you answer, always: 1) Provide the best possible answer in a clear, concise and well-organized way, using headings, bullet points and step-by-step lists when helpful. 2) Keep explanations focused and avoid unnecessary repetition. 3) After the main answer, add a short section titled \"Follow-up suggestions\" with 3-5 short example questions the user could ask next that are directly related to their original question."

/-- The fallback base system prompt (the literal used when the
SYSTEM_PROMPT environment variable is unset). -/
def defaultBaseSystemPrompt : String :=
  "You are Alpha. If asked who created you or who built you, answer exactly: \"Sarthak created me.\" Always refer to yourself as Alpha."

/-- defaultSystemPrompt in server.js: the base system prompt followed
by a blank line and the formatting instruction. -/
def defaultSystemPrompt (base : String) : String :=
  base ++ "\n\n" ++ suggestionInstructions

/-- hasSystem in the /api/chat handler: does any sanitized turn carry
the system role. -/
def hasSystem (safeMessages : List ChatTurn) : Bool :=
  safeMessages.any (fun m => m.role == Role.system)

/-- finalMessages in the /api/chat handler: prepend the composed system
turn exactly when no system turn survived sanitization.  The base
system prompt is environment-provided, so it is a parameter. -/
def finalMessages (base : String) (safeMessages : List ChatTurn) : List ChatTurn :=
  if hasSystem safeMessages then safeMessages
  else ⟨Role.system, defaultSystemPrompt base⟩ :: safeMessages

/-- The request body fields read by the /api/chat handler. -/
structure ChatRequest where
  messages : RawMessages
  model : JVal
  temperature : NumInput
  top_p : NumInput
  max_tokens : NumInput

/-- The payload forwarded to the provider on the success path. -/
structure ChatPayload where
  model : String
  messages : List ChatTurn
  temperature : Option ℚ
  top_p : Option ℚ
  max_tokens : Option ℚ
deriving DecidableEq

/-- Outcome of the request-composition part of the /api/chat handler:
a 400 validation rejection, or the payload sent upstream. -/
inductive ChatResult
  | validationError (message : String)
  | forward (payload : ChatPayload)
deriving DecidableEq

/-- The pure request-composition pipeline of the /api/chat handler
(after the configuration check for the API key, which does not depend
on the request): sanitize, reject when nothing survived, select the
model, compose the final message list, clamp the numeric options. -/
def handleChat (base : String) (req : ChatRequest) : ChatResult :=
  let safeMessages := sanitizeMessages req.messages
  if safeMessages.isEmpty then
    .validationError ("Invalid request: at least one non-empty user message is required")
  else
    let selectedModel := match req.model with
      | .str s => if jsTrim s != "" then jsTrim s else "openai/gpt-4o-mini"
      | _ => "openai/gpt-4o-mini"
    .forward
      { model := selectedModel
        messages := finalMessages base safeMessages
        temperature := clampNumber req.temperature 0 1
        top_p := clampNumber req.top_p 0 1
        max_tokens := clampNumber req.max_tokens 1 4096 }

/-- The argument of extractFollowUpSuggestions: a string, or any value
that fails the initial string-or-empty guard (null, undefined, or a
non-string value). -/
inductive ReplyInput
  | notStr
  | str (s : String)
deriving DecidableEq

/-- Truthiness of the matched-text candidate (null or an empty capture
is falsy). -/
def truthyStr : Option String → Bool
  | none => false
  | some s => s != ""

/-- The bullet pattern: a dash or an asterisk, at least one whitespace
character, then the (greedy) captured remainder of the line. -/
def bulletCapture (line : String) : Option String :=
  match line.data with
  | c :: w :: rest =>
    if (c == '-' || c == '*') && isJsWs w then
      some ⟨(w :: rest).dropWhile isJsWs⟩
    else none
  | _ => none

/-- The numbered-list pattern: one or more digits, a dot, at least one
whitespace character, then the captured remainder of the line. -/
def numberedCapture (line : String) : Option String :=
  let ds := line.data.takeWhile Char.isDigit
  match ds, line.data.drop ds.length with
  | _ :: _, '.' :: w :: rest =>
    if isJsWs w then some ⟨(w :: rest).dropWhile isJsWs⟩ else none
  | _, _ => none

/-- The text variable of the loop body: the bullet capture when the
match succeeded with a truthy capture, else the numbered capture when
truthy, else null. -/
def matchText (line : String) : Option String :=
  let b := bulletCapture line
  let n := numberedCapture line
  if truthyStr b then b else if truthyStr n then n else none

/-- Header test used by lines.findIndex: the line, trimmed and
lowercased, equals one of the two exact forms or starts with the
heading form. -/
def isHeaderLine (l : String) : Bool :=
  let t := jsToLower (jsTrim l)
  t == "follow-up suggestions:" || t == "follow-up suggestions" ||
    jsStartsWith t ("### follow-up suggestions")

/-- findIndex followed by taking the lines after the header: none when
no line satisfies the header test. -/
def findHeaderTail : List String → Option (List String)
  | [] => none
  | l :: rest => if isHeaderLine l then some rest else findHeaderTail rest

/-- The collection loop of extractFollowUpSuggestions, one iteration
per remaining line, carrying the suggestions collected so far. -/
def scanLoop : List String → List String → List String
  | [], suggestions => suggestions
  | raw :: rest, suggestions =>
    let line := jsTrim raw
    if line = "" then scanLoop rest suggestions
    else if jsStartsWith line ("#")
        && !(jsStartsWith (jsToLower line) ("### follow-up suggestions")) then
      if suggestions.length > 0 then suggestions else scanLoop rest suggestions
    else
      match matchText line with
      | some text =>
        let pushed := suggestions ++ [jsTrim text]
        if pushed.length ≥ 5 then pushed else scanLoop rest pushed
      | none =>
        if suggestions.length > 0 then suggestions else scanLoop rest suggestions

/-- extractFollowUpSuggestions from the client file: guard, split into
lines, find the header, collect the list items after it. -/
def extractFollowUpSuggestions : ReplyInput → List String
  | .notStr => []
  | .str content =>
    if content = "" then []
    else
      match findHeaderTail (jsSplitLines content) with
      | none => []
      | some rest => scanLoop rest []

/-- A string built from a character list is empty exactly when the list is empty. -/
theorem mk_eq_empty_iff (l : List Char) : (⟨l⟩ : String) = "" ↔ l = [] := by
  constructor
  · intro h
    have : (String.mk l).data = ("" : String).data := by rw [h]
    simpa using this
  · intro h
    rw [h]

/-- Trimming yields the empty string exactly when every character of the
string is whitespace. -/
theorem jsTrim_eq_empty_iff (s : String) : jsTrim s = "" ↔ ∀ c ∈ s.data, isJsWs c := by
  rw [jsTrim, mk_eq_empty_iff, List.rdropWhile_eq_nil_iff]
  constructor
  · intro h c hc
    have hsplit := List.takeWhile_append_dropWhile (p := isJsWs) (l := s.data)
    rw [← hsplit] at hc
    rcases List.mem_append.mp hc with h1 | h2
    · exact List.mem_takeWhile_imp h1
    · exact h c h2
  · intro h c hc
    exact h c ((List.dropWhile_suffix isJsWs).subset hc)

/-- The list-level trim (leading dropWhile, then trailing rdropWhile) is
idempotent. -/
theorem trimList_idem (l : List Char) :
    (((l.dropWhile isJsWs).rdropWhile isJsWs).dropWhile isJsWs).rdropWhile isJsWs
      = (l.dropWhile isJsWs).rdropWhile isJsWs := by
  have h1 : ((l.dropWhile isJsWs).rdropWhile isJsWs).dropWhile isJsWs
      = (l.dropWhile isJsWs).rdropWhile isJsWs := by
    rw [List.dropWhile_eq_self_iff]
    intro hl
    have hpre := List.rdropWhile_prefix isJsWs (l.dropWhile isJsWs)
    have hlen : 0 < (l.dropWhile isJsWs).length := by
      have := hpre.length_le
      omega
    have hget := List.dropWhile_get_zero_not (p := isJsWs) l hlen
    intro hcontra
    apply hget
    rw [List.get_eq_getElem] at hcontra ⊢
    rw [← hpre.getElem hl]
    exact hcontra
  rw [h1, List.rdropWhile_idempotent]

/-- jsTrim is idempotent. -/
theorem jsTrim_idem (s : String) : jsTrim (jsTrim s) = jsTrim s :=
  congrArg String.mk (trimList_idem s.data)

/-- Trimming a nonempty dropWhile residue never yields the empty string:
the head of the residue is not whitespace. -/
theorem trim_dropWhile_ne_empty (l : List Char) (h : l.dropWhile isJsWs ≠ []) :
    jsTrim ⟨l.dropWhile isJsWs⟩ ≠ "" := by
  rw [Ne, jsTrim_eq_empty_iff]
  intro hall
  have hlen : 0 < (l.dropWhile isJsWs).length := List.length_pos.mpr h
  have h0 := List.dropWhile_get_zero_not (p := isJsWs) l hlen
  exact h0 (hall _ (List.get_mem _ _ _))

/-- A successful bullet capture is the whitespace-stripped residue of some
character list. -/
theorem bulletCapture_shape {line t : String} (h : bulletCapture line = some t) :
    ∃ l : List Char, t = ⟨l.dropWhile isJsWs⟩ := by
  unfold bulletCapture at h
  split at h
  · split at h
    · exact ⟨_, (Option.some.inj h).symm⟩
    · simp at h
  · simp at h

/-- A successful numbered-list capture is the whitespace-stripped residue
of some character list. -/
theorem numberedCapture_shape {line t : String} (h : numberedCapture line = some t) :
    ∃ l : List Char, t = ⟨l.dropWhile isJsWs⟩ := by
  unfold numberedCapture at h
  dsimp only at h
  split at h
  · split at h
    · exact ⟨_, (Option.some.inj h).symm⟩
    · simp at h
  · simp at h

/-- A successful list-pattern match yields a nonempty capture that is a
whitespace-stripped residue. -/
theorem matchText_eq_some {line t : String} (h : matchText line = some t) :
    t ≠ "" ∧ ∃ l : List Char, t = ⟨l.dropWhile isJsWs⟩ := by
  unfold matchText at h
  dsimp only at h
  split at h
  · next hb =>
    refine ⟨?_, bulletCapture_shape h⟩
    rw [h] at hb
    simpa [truthyStr] using hb
  · split at h
    · next hn =>
      refine ⟨?_, numberedCapture_shape h⟩
      rw [h] at hn
      simpa [truthyStr] using hn
    · simp at h

/-- A nonempty whitespace-stripped capture stays nonempty after trimming,
and trimming it again changes nothing. -/
theorem trimmed_item {t : String} (ht : t ≠ "") (hs : ∃ l : List Char, t = ⟨l.dropWhile isJsWs⟩) :
    jsTrim t ≠ "" ∧ jsTrim (jsTrim t) = jsTrim t := by
  obtain ⟨l, rfl⟩ := hs
  refine ⟨?_, jsTrim_idem _⟩
  apply trim_dropWhile_ne_empty
  intro hnil
  exact ht ((mk_eq_empty_iff _).mpr hnil)

/-- Invariant of the collection loop: starting from an accumulator of
nonempty trimmed strings, every collected suggestion is nonempty and
trimmed. -/
theorem scanLoop_invariant (lines : List String) :
    ∀ acc, (∀ x ∈ acc, x ≠ "" ∧ jsTrim x = x) →
      ∀ x ∈ scanLoop lines acc, x ≠ "" ∧ jsTrim x = x := by
  induction lines with
  | nil =>
    intro acc hacc x hx
    rw [scanLoop] at hx
    exact hacc x hx
  | cons raw rest ih =>
    intro acc hacc x hx
    rw [scanLoop] at hx
    split at hx
    · exact ih acc hacc x hx
    · split at hx
      · split at hx
        · exact hacc x hx
        · exact ih acc hacc x hx
      · split at hx
        · next text hm =>
          dsimp only at hx
          have hpush : ∀ y ∈ acc ++ [jsTrim text], y ≠ "" ∧ jsTrim y = y := by
            intro y hy
            rcases List.mem_append.mp hy with h1 | h2
            · exact hacc y h1
            · have := matchText_eq_some hm
              have htr := trimmed_item this.1 this.2
              rcases List.mem_singleton.mp h2 with rfl
              exact ⟨htr.1, htr.2⟩
          split at hx
          · exact hpush x hx
          · exact ih _ hpush x hx
        · split at hx
          · exact hacc x hx
          · exact ih acc hacc x hx

/-- When no line passes the header test, the header search fails. -/
theorem findHeaderTail_eq_none {lines : List String} (h : ∀ l ∈ lines, isHeaderLine l = false) :
    findHeaderTail lines = none := by
  induction lines with
  | nil => rfl
  | cons a rest ih =>
    have ha : isHeaderLine a = false := h a (List.mem_cons_self a rest)
    rw [findHeaderTail, ha]
    simp only [Bool.false_eq_true, if_false]
    exact ih (fun l hl => h l (List.mem_cons_of_mem a hl))

/-- Claim C10: every string returned by extractFollowUpSuggestions, for
every input, is non-empty and carries no leading or trailing whitespace;
each captured item is trimmed before being appended and a marker followed
only by whitespace never produces an item. -/
theorem extractFollowUpSuggestions_items_trimmed (input : ReplyInput) :
    ∀ x ∈ extractFollowUpSuggestions input, x ≠ "" ∧ jsTrim x = x := by
  intro x hx
  cases input with
  | notStr => simp [extractFollowUpSuggestions] at hx
  | str content =>
    rw [extractFollowUpSuggestions] at hx
    split at hx
    · simp at hx
    · split at hx
      · simp at hx
      · exact scanLoop_invariant _ [] (by simp) x hx

/-- Witness for claim C10 at a concrete reply. -/
theorem extractFollowUpSuggestions_items_trimmed_witness :
    ("What is X?" : String) ≠ "" ∧ jsTrim ("What is X?") = "What is X?" :=
  extractFollowUpSuggestions_items_trimmed
    (.str ("### Follow-up suggestions\n- What is X?")) ("What is X?") (by decide)

/-- Claim C5: on the documented example the extractor returns exactly the
two bullet texts; in general, once at least one suggestion has been
collected, the first non-blank line that does not match a list pattern
terminates scanning, so later text is never collected. -/
theorem extractFollowUpSuggestions_example_and_stop :
    extractFollowUpSuggestions
        (.str ("### Follow-up suggestions\n- What is X?\n- How does Y work?\n\nMore text"))
      = ["What is X?", "How does Y work?"]
    ∧ ∀ (l : String) (rest acc : List String), acc ≠ [] → jsTrim l ≠ "" →
        matchText (jsTrim l) = none → scanLoop (l :: rest) acc = acc := by
  refine ⟨by decide, ?_⟩
  intro l rest acc hacc hline hmatch
  rw [scanLoop]
  dsimp only
  rw [if_neg hline]
  split
  · rw [if_pos (List.length_pos.mpr hacc)]
  · simp only [hmatch]
    rw [if_pos (List.length_pos.mpr hacc)]

/-- Witness for claim C5: the stop rule applied at a concrete line and
accumulator. -/
theorem extractFollowUpSuggestions_example_and_stop_witness :
    scanLoop (("More text") :: []) (["What is X?"]) = ["What is X?"] :=
  extractFollowUpSuggestions_example_and_stop.2 ("More text") [] (["What is X?"])
    (by decide) (by decide) (by decide)

/-- Claim C8: the extractor returns a non-empty list only if some line,
trimmed and lowercased, equals the two exact header forms or starts with
the heading form; with no such line (for example the input given here) it
returns the empty list, as it does for a non-string input. -/
theorem extractFollowUpSuggestions_requires_header :
    (∀ s : String,
        (∀ l ∈ jsSplitLines s,
            ¬(jsToLower (jsTrim l) = "follow-up suggestions:"
              ∨ jsToLower (jsTrim l) = "follow-up suggestions"
              ∨ jsStartsWith (jsToLower (jsTrim l)) ("### follow-up suggestions") = true)) →
        extractFollowUpSuggestions (.str s) = [])
    ∧ extractFollowUpSuggestions (.str ("No section here")) = []
    ∧ extractFollowUpSuggestions .notStr = [] := by
  refine ⟨?_, by decide, rfl⟩
  intro s hs
  have hnone : findHeaderTail (jsSplitLines s) = none := by
    apply findHeaderTail_eq_none
    intro l hl
    have hnot := hs l hl
    have h1 : (jsToLower (jsTrim l) == "follow-up suggestions:") = false :=
      beq_eq_false_iff_ne.mpr (fun hh => hnot (Or.inl hh))
    have h2 : (jsToLower (jsTrim l) == "follow-up suggestions") = false :=
      beq_eq_false_iff_ne.mpr (fun hh => hnot (Or.inr (Or.inl hh)))
    have h3 : jsStartsWith (jsToLower (jsTrim l)) ("### follow-up suggestions") = false :=
      Bool.eq_false_iff.mpr (fun hh => hnot (Or.inr (Or.inr hh)))
    simp [isHeaderLine, h1, h2, h3]
  rw [extractFollowUpSuggestions]
  by_cases hempty : s = ""
  · rw [if_pos hempty]
  · rw [if_neg hempty, hnone]

/-- Witness for claim C8 at a concrete headerless text. -/
theorem extractFollowUpSuggestions_requires_header_witness :
    extractFollowUpSuggestions (.str ("just text\nand more")) = [] :=
  extractFollowUpSuggestions_requires_header.1 ("just text\nand more") (by decide)

/-- Counterexample to claim C9 as stated: a markdown heading met before
any suggestion has been collected does not terminate the scan; the bullet
item after it is still collected, so the result is not empty. -/
theorem extractFollowUpSuggestions_heading_not_terminator :
    extractFollowUpSuggestions (.str ("### Follow-up suggestions\n## Other\n- A")) = ["A"]
    ∧ extractFollowUpSuggestions (.str ("### Follow-up suggestions\n## Other\n- A")) ≠ [] :=
  ⟨by decide, by decide⟩

/-- Claim C9 as amended: before any suggestion has been collected, every
line that is blank or does not match a list pattern - markdown headings
included - is skipped; once at least one suggestion exists, any non-blank
line that does not match a list pattern terminates the scan with the
suggestions collected so far. -/
theorem scanLoop_skip_and_stop (l : String) (rest : List String) :
    (jsTrim l = "" → ∀ acc, scanLoop (l :: rest) acc = scanLoop rest acc)
    ∧ (jsTrim l ≠ "" → matchText (jsTrim l) = none →
        scanLoop (l :: rest) [] = scanLoop rest []
        ∧ ∀ acc, acc ≠ [] → scanLoop (l :: rest) acc = acc) := by
  constructor
  · intro h acc
    rw [scanLoop]
    dsimp only
    rw [if_pos h]
  · intro hline hmatch
    constructor
    · rw [scanLoop]
      dsimp only
      rw [if_neg hline]
      split
      · simp
      · simp only [hmatch]
        simp
    · intro acc hacc
      rw [scanLoop]
      dsimp only
      rw [if_neg hline]
      split
      · rw [if_pos (List.length_pos.mpr hacc)]
      · simp only [hmatch]
        rw [if_pos (List.length_pos.mpr hacc)]

/-- Witness for claim C9 at concrete lines and accumulators. -/
theorem scanLoop_skip_and_stop_witness :
    scanLoop (("   ") :: (["- A"])) [] = scanLoop (["- A"]) []
    ∧ scanLoop (("prose here") :: (["- B"])) [] = scanLoop (["- B"]) []
    ∧ scanLoop (("prose here") :: []) (["x"]) = ["x"] :=
  ⟨(scanLoop_skip_and_stop ("   ") (["- A"])).1 (by decide) [],
   ((scanLoop_skip_and_stop ("prose here") (["- B"])).2 (by decide) (by decide)).1,
   ((scanLoop_skip_and_stop ("prose here") []).2 (by decide) (by decide)).2 (["x"]) (by decide)⟩

/-- Every turn produced by the sanitization loop has content of at most
MAX_CHARS characters. -/
theorem sanitizeEntry_content_le {m : RawEntry} {t : ChatTurn} (h : sanitizeEntry m = some t) :
    t.content.length ≤ MAX_CHARS := by
  unfold sanitizeEntry at h
  cases m with
  | notObject => simp at h
  | entry rf c =>
    dsimp only at h
    split at h
    · simp at h
    · split at h
      · simp at h
      · next hne =>
        rw [Option.some.injEq] at h
        subst h
        dsimp only
        split
        · simp only [jsSlice, String.length, List.length_take]
          omega
        · next hle => omega

/-- The sanitizer returns at most MAX_MESSAGES turns. -/
theorem sanitizeMessages_length_le (raw : RawMessages) :
    (sanitizeMessages raw).length ≤ MAX_MESSAGES := by
  cases raw with
  | notArray => simp [sanitizeMessages]
  | array xs =>
    calc (sanitizeMessages (.array xs)).length
        ≤ (xs.rtake MAX_MESSAGES).length := List.length_filterMap_le _ _
      _ ≤ MAX_MESSAGES := by
          simp only [List.rtake, List.length_drop]
          omega

set_option maxRecDepth 8192 in
/-- The composed default system prompt stays within the content bound. -/
theorem defaultPrompt_length_le :
    (defaultSystemPrompt defaultBaseSystemPrompt).length ≤ MAX_CHARS := by decide

/-- Claim C1 as amended: for every input, the sanitizer returns at most 50
turns, each with content of at most 4000 characters; the composed message
sequence has at most 51 turns (the surviving turns plus possibly one
synthesized system turn), and with the default environment prompt every
composed turn, the synthesized one included, has content of at most 4000
characters. -/
theorem sanitizePipeline_bounds (base : String) (raw : RawMessages) :
    (sanitizeMessages raw).length ≤ MAX_MESSAGES
    ∧ (∀ t ∈ sanitizeMessages raw, t.content.length ≤ MAX_CHARS)
    ∧ (finalMessages base (sanitizeMessages raw)).length ≤ MAX_MESSAGES + 1
    ∧ (∀ t ∈ finalMessages defaultBaseSystemPrompt (sanitizeMessages raw),
        t.content.length ≤ MAX_CHARS) := by
  have hlen := sanitizeMessages_length_le raw
  have hcontent : ∀ t ∈ sanitizeMessages raw, t.content.length ≤ MAX_CHARS := by
    intro t ht
    cases raw with
    | notArray => simp [sanitizeMessages] at ht
    | array xs =>
      obtain ⟨m, _, hm⟩ := List.mem_filterMap.mp ht
      exact sanitizeEntry_content_le hm
  refine ⟨hlen, hcontent, ?_, ?_⟩
  · rw [finalMessages]
    split
    · omega
    · simp only [List.length_cons]
      omega
  · intro t ht
    rw [finalMessages] at ht
    split at ht
    · exact hcontent t ht
    · rcases List.mem_cons.mp ht with rfl | h2
      · exact defaultPrompt_length_le
      · exact hcontent t h2

/-- Witness for claim C1 at a concrete request. -/
theorem sanitizePipeline_bounds_witness :
    (sanitizeMessages (.array [.entry (.valid .user) (.cStr ("hi"))])).length ≤ MAX_MESSAGES
    ∧ (⟨Role.user, "hi"⟩ : ChatTurn).content.length ≤ MAX_CHARS :=
  ⟨(sanitizePipeline_bounds ("b") (.array [.entry (.valid .user) (.cStr ("hi"))])).1,
   (sanitizePipeline_bounds ("b") (.array [.entry (.valid .user) (.cStr ("hi"))])).2.1
     ⟨Role.user, "hi"⟩ (by decide)⟩

/-- Counterexample to claim C1 as stated: fifty surviving user turns plus
the synthesized system turn give a composed sequence of 51 turns, which
exceeds the stated bound of 50. -/
theorem sanitizePipeline_turn_count_cex :
    (finalMessages defaultBaseSystemPrompt
        (sanitizeMessages (.array (List.replicate 50 (.entry (.valid .user) (.cStr ("hi"))))))).length
      = 51
    ∧ ¬((finalMessages defaultBaseSystemPrompt
        (sanitizeMessages (.array (List.replicate 50 (.entry (.valid .user) (.cStr ("hi"))))))).length
      ≤ 50) :=
  ⟨by decide, by decide⟩

/-- Claim C3: when the surviving turns contain no system turn, the
composed output is the synthesized system turn (base prompt concatenated
with the formatting instruction) followed by the surviving turns; when a
system turn is present, the surviving turns are passed through exactly as
supplied. -/
theorem finalMessages_composition (base : String) (raw : RawMessages) :
    (hasSystem (sanitizeMessages raw) = false →
        finalMessages base (sanitizeMessages raw)
          = ⟨Role.system, defaultSystemPrompt base⟩ :: sanitizeMessages raw)
    ∧ (hasSystem (sanitizeMessages raw) = true →
        finalMessages base (sanitizeMessages raw) = sanitizeMessages raw) := by
  constructor
  · intro h
    rw [finalMessages, h]
    simp
  · intro h
    rw [finalMessages, h]
    simp

/-- Witness for claim C3 at concrete requests for both branches. -/
theorem finalMessages_composition_witness :
    finalMessages ("b") (sanitizeMessages (.array [.entry (.valid .user) (.cStr ("q"))]))
      = ⟨Role.system, defaultSystemPrompt ("b")⟩
          :: sanitizeMessages (.array [.entry (.valid .user) (.cStr ("q"))])
    ∧ finalMessages ("b") (sanitizeMessages (.array [.entry (.valid .system) (.cStr ("s"))]))
      = sanitizeMessages (.array [.entry (.valid .system) (.cStr ("s"))]) :=
  ⟨(finalMessages_composition ("b") (.array [.entry (.valid .user) (.cStr ("q"))])).1 (by decide),
   (finalMessages_composition ("b") (.array [.entry (.valid .system) (.cStr ("s"))])).2 (by decide)⟩

/-- Claim C4: the chat handler rejects with a validation error exactly
when zero entries survive sanitization - in particular for the empty list
and for a whitespace-only user message - and for no other malformed
field. -/
theorem handleChat_reject_iff (base : String) (req : ChatRequest) :
    ((∃ m, handleChat base req = .validationError m) ↔ sanitizeMessages req.messages = [])
    ∧ handleChat base ⟨.array [], .undef, .notNumber, .notNumber, .notNumber⟩
        = .validationError ("Invalid request: at least one non-empty user message is required")
    ∧ handleChat base
        ⟨.array [.entry (.valid .user) (.cStr ("   "))], .undef, .notNumber, .notNumber, .notNumber⟩
        = .validationError ("Invalid request: at least one non-empty user message is required") := by
  refine ⟨⟨?_, ?_⟩, rfl, rfl⟩
  · intro ⟨m, hm⟩
    rw [handleChat] at hm
    dsimp only at hm
    split at hm
    · next hemp => exact List.isEmpty_iff.mp hemp
    · simp at hm
  · intro h
    refine ⟨"Invalid request: at least one non-empty user message is required", ?_⟩
    rw [handleChat]
    dsimp only
    rw [if_pos (List.isEmpty_iff.mpr h)]

/-- Witness for claim C4 at a concrete empty request. -/
theorem handleChat_reject_iff_witness :
    ∃ m, handleChat ("b") ⟨.array [], .undef, .notNumber, .notNumber, .notNumber⟩
      = .validationError m :=
  (handleChat_reject_iff ("b") ⟨.array [], .undef, .notNumber, .notNumber, .notNumber⟩).1.mpr
    (by decide)

/-- Claim C6: per entry, a non-record is skipped; an invalid role is
coerced to user and a valid role kept; null or non-coercible content drops
the entry; coercible non-string content behaves like its string form;
whitespace-only content drops the entry; surviving content is the trimmed
text truncated to its first 4000 characters. -/
theorem sanitizeEntry_spec :
    sanitizeEntry .notObject = none
    ∧ (∀ rf c t, sanitizeEntry (.entry rf c) = some t →
        (rf = .invalid → t.role = .user) ∧ ∀ r, rf = .valid r → t.role = r)
    ∧ (∀ rf, sanitizeEntry (.entry rf .cNull) = none)
    ∧ (∀ rf, sanitizeEntry (.entry rf (.cOther none)) = none)
    ∧ (∀ rf s, sanitizeEntry (.entry rf (.cOther (some s))) = sanitizeEntry (.entry rf (.cStr s)))
    ∧ (∀ rf s, jsTrim s = "" → sanitizeEntry (.entry rf (.cStr s)) = none)
    ∧ (∀ rf s t, sanitizeEntry (.entry rf (.cStr s)) = some t →
        t.content = ⟨(jsTrim s).data.take MAX_CHARS⟩) := by
  refine ⟨rfl, ?_, fun rf => rfl, fun rf => rfl, fun rf s => rfl, ?_, ?_⟩
  · intro rf c t h
    unfold sanitizeEntry at h
    dsimp only at h
    split at h
    · simp at h
    · split at h
      · simp at h
      · rw [Option.some.injEq] at h
        subst h
        constructor
        · intro hrf
          subst hrf
          rfl
        · intro r hrf
          subst hrf
          rfl
  · intro rf s h
    unfold sanitizeEntry
    dsimp only
    rw [if_pos h]
  · intro rf s t h
    unfold sanitizeEntry at h
    dsimp only at h
    split at h
    · simp at h
    · next hne =>
      rw [Option.some.injEq] at h
      subst h
      dsimp only
      split
      · rfl
      · next hle =>
        have hlen : (jsTrim s).data.length ≤ MAX_CHARS := Nat.not_lt.mp hle
        rw [List.take_of_length_le hlen]

/-- Witness for claim C6 at concrete entries. -/
theorem sanitizeEntry_spec_witness :
    (⟨Role.user, "hi"⟩ : ChatTurn).role = Role.user
    ∧ sanitizeEntry (.entry .invalid (.cStr ("   "))) = none
    ∧ (⟨Role.user, "hi"⟩ : ChatTurn).content = ⟨(jsTrim ("hi")).data.take MAX_CHARS⟩ :=
  ⟨(sanitizeEntry_spec.2.1 .invalid (.cStr ("hi")) ⟨Role.user, "hi"⟩ (by decide)).1 rfl,
   sanitizeEntry_spec.2.2.2.2.2.1 .invalid ("   ") (by decide),
   sanitizeEntry_spec.2.2.2.2.2.2 (.valid .user) ("hi") ⟨Role.user, "hi"⟩ (by decide)⟩

/-- Claim C7: each numeric option is independently clamped into its range
(below the minimum becomes the minimum, above the maximum becomes the
maximum, in-range values pass through), non-numeric or NaN inputs become
absent rather than an error, and the forwarded payload carries exactly the
clamped temperature, top_p in the unit interval and max_tokens in one to
4096. -/
theorem clampNumber_spec :
    (∀ lo hi : ℚ, clampNumber .notNumber lo hi = none ∧ clampNumber .nan lo hi = none)
    ∧ (∀ q lo hi : ℚ, lo ≤ hi →
        (q < lo → clampNumber (.num q) lo hi = some lo)
        ∧ (hi < q → clampNumber (.num q) lo hi = some hi)
        ∧ (lo ≤ q → q ≤ hi → clampNumber (.num q) lo hi = some q))
    ∧ (∀ (v : NumInput) (lo hi x : ℚ), lo ≤ hi → clampNumber v lo hi = some x →
        lo ≤ x ∧ x ≤ hi)
    ∧ (∀ (base : String) (req : ChatRequest) (p : ChatPayload),
        handleChat base req = .forward p →
          p.temperature = clampNumber req.temperature 0 1
          ∧ p.top_p = clampNumber req.top_p 0 1
          ∧ p.max_tokens = clampNumber req.max_tokens 1 4096) := by
  refine ⟨fun lo hi => ⟨rfl, rfl⟩, ?_, ?_, ?_⟩
  · intro q lo hi hle
    refine ⟨fun h => ?_, fun h => ?_, fun h1 h2 => ?_⟩
    · rw [clampNumber, if_pos h]
    · rw [clampNumber, if_neg (by linarith), if_pos h]
    · rw [clampNumber, if_neg (by linarith), if_neg (by linarith)]
  · intro v lo hi x hle h
    cases v with
    | notNumber => simp [clampNumber] at h
    | nan => simp [clampNumber] at h
    | num q =>
      rw [clampNumber] at h
      split at h
      · rw [Option.some.injEq] at h
        subst h
        exact ⟨le_refl _, hle⟩
      · split at h
        · rw [Option.some.injEq] at h
          subst h
          exact ⟨hle, le_refl _⟩
        · next h1 h2 =>
          rw [Option.some.injEq] at h
          subst h
          exact ⟨not_lt.mp h1, not_lt.mp h2⟩
  · intro base req p h
    rw [handleChat] at h
    dsimp only at h
    split at h
    · simp at h
    · rw [ChatResult.forward.injEq] at h
      subst h
      exact ⟨rfl, rfl, rfl⟩

/-- Witness for claim C7 at concrete option values. -/
theorem clampNumber_spec_witness :
    clampNumber (.num 2) 0 1 = some 1
    ∧ clampNumber (.num (-1)) 0 1 = some 0
    ∧ ((1:ℚ) ≤ 7 ∧ (7:ℚ) ≤ 4096) :=
  ⟨((clampNumber_spec.2.1 2 0 1 (by norm_num)).2.1 (by norm_num)),
   ((clampNumber_spec.2.1 (-1) 0 1 (by norm_num)).1 (by norm_num)),
   (clampNumber_spec.2.2.1 (.num 7) 1 4096 7 (by norm_num) (by norm_num [clampNumber]))⟩

/-- Claim C2: the classifier is total and follows the first-match table:
no status with the timeout code gives 504 with the fixed timeout message;
no status otherwise gives 502 unreachable; status 401 or 403 gives 500 not
authorized; status 429 gives 429 too-many-requests; status at least 500
gives 502 provider-issue; any other HTTP status passes through with the
provider text when it is a string and a generic fallback otherwise. -/
theorem buildClientErrorFromOpenRouter_table (err : UpstreamFailure) :
    (err.status = none → err.code = some ("ECONNABORTED") →
        buildClientErrorFromOpenRouter err
          = (504, "The AI took too long to respond. Please try again."))
    ∧ (err.status = none → err.code ≠ some ("ECONNABORTED") →
        buildClientErrorFromOpenRouter err
          = (502, "Unable to reach the AI service. Please try again in a moment."))
    ∧ (∀ s, err.status = some s → s = 401 ∨ s = 403 →
        buildClientErrorFromOpenRouter err
          = (500, "The AI backend is not authorized. Please contact the administrator."))
    ∧ (err.status = some 429 →
        buildClientErrorFromOpenRouter err
          = (429, "The AI is receiving too many requests. Please slow down and try again shortly."))
    ∧ (∀ s, err.status = some s → 500 ≤ s →
        buildClientErrorFromOpenRouter err
          = (502, "The AI provider is having an issue. Please try again later."))
    ∧ (∀ s, err.status = some s → 100 ≤ s → s < 500 → s ≠ 401 → s ≠ 403 → s ≠ 429 →
        (∀ msg, err.dataError = .str msg → msg ≠ "" →
            buildClientErrorFromOpenRouter err = (s, msg))
        ∧ (err.dataError = .obj →
            buildClientErrorFromOpenRouter err = (s, "Request failed"))) := by
  obtain ⟨st, de, em, cd⟩ := err
  refine ⟨?_, ?_, ?_, ?_, ?_, ?_⟩
  · intro h1 h2
    subst h1
    subst h2
    simp [buildClientErrorFromOpenRouter, statusTruthy]
  · intro h1 h2
    subst h1
    simp [buildClientErrorFromOpenRouter, statusTruthy, h2]
  · intro s hst hor
    subst hst
    rcases hor with rfl | rfl
    · simp [buildClientErrorFromOpenRouter, statusTruthy]
    · simp [buildClientErrorFromOpenRouter, statusTruthy]
  · intro hst
    subst hst
    simp [buildClientErrorFromOpenRouter, statusTruthy]
  · intro s hst h500
    subst hst
    have h0 : (s != 0) = true := bne_iff_ne.mpr (by omega)
    have h401 : (s == 401) = false := beq_eq_false_iff_ne.mpr (by omega)
    have h403 : (s == 403) = false := beq_eq_false_iff_ne.mpr (by omega)
    have h429 : (s == 429) = false := beq_eq_false_iff_ne.mpr (by omega)
    simp [buildClientErrorFromOpenRouter, statusTruthy, h0, h401, h403, h429, h500]
  · intro s hst h100 hlt h401 h403 h429
    subst hst
    have h0 : (s != 0) = true := bne_iff_ne.mpr (by omega)
    have hb401 : (s == 401) = false := beq_eq_false_iff_ne.mpr h401
    have hb403 : (s == 403) = false := beq_eq_false_iff_ne.mpr h403
    have hb429 : (s == 429) = false := beq_eq_false_iff_ne.mpr h429
    have hn500 : ¬(500 ≤ s) := by omega
    constructor
    · intro msg hde hmsg
      subst hde
      simp [buildClientErrorFromOpenRouter, statusTruthy, jsOr, jTruthy,
        h0, hb401, hb403, hb429, hn500, bne_iff_ne.mpr hmsg]
    · intro hde
      subst hde
      simp [buildClientErrorFromOpenRouter, statusTruthy, jsOr, jTruthy,
        h0, hb401, hb403, hb429, hn500]

/-- Witness for claim C2: every row of the table evaluated at a concrete
failure. -/
theorem buildClientErrorFromOpenRouter_table_witness :
    buildClientErrorFromOpenRouter ⟨none, .undef, .undef, some ("ECONNABORTED")⟩
      = (504, "The AI took too long to respond. Please try again.")
    ∧ buildClientErrorFromOpenRouter ⟨none, .undef, .undef, none⟩
      = (502, "Unable to reach the AI service. Please try again in a moment.")
    ∧ buildClientErrorFromOpenRouter ⟨some 403, .obj, .undef, none⟩
      = (500, "The AI backend is not authorized. Please contact the administrator.")
    ∧ buildClientErrorFromOpenRouter ⟨some 429, .undef, .undef, some ("ECONNABORTED")⟩
      = (429, "The AI is receiving too many requests. Please slow down and try again shortly.")
    ∧ buildClientErrorFromOpenRouter ⟨some 503, .undef, .undef, none⟩
      = (502, "The AI provider is having an issue. Please try again later.")
    ∧ buildClientErrorFromOpenRouter ⟨some 404, .str ("model not found"), .undef, none⟩
      = (404, "model not found")
    ∧ buildClientErrorFromOpenRouter ⟨some 404, .obj, .undef, none⟩
      = (404, "Request failed") :=
  ⟨(buildClientErrorFromOpenRouter_table ⟨none, .undef, .undef, some ("ECONNABORTED")⟩).1
      rfl rfl,
   (buildClientErrorFromOpenRouter_table ⟨none, .undef, .undef, none⟩).2.1
      rfl (by decide),
   (buildClientErrorFromOpenRouter_table ⟨some 403, .obj, .undef, none⟩).2.2.1
      403 rfl (Or.inr rfl),
   (buildClientErrorFromOpenRouter_table ⟨some 429, .undef, .undef, some ("ECONNABORTED")⟩).2.2.2.1
      rfl,
   (buildClientErrorFromOpenRouter_table ⟨some 503, .undef, .undef, none⟩).2.2.2.2.1
      503 rfl (by omega),
   ((buildClientErrorFromOpenRouter_table ⟨some 404, .str ("model not found"), .undef, none⟩).2.2.2.2.2
      404 rfl (by omega) (by omega) (by omega) (by omega) (by omega)).1
      ("model not found") rfl (by decide),
   ((buildClientErrorFromOpenRouter_table ⟨some 404, .obj, .undef, none⟩).2.2.2.2.2
      404 rfl (by omega) (by omega) (by omega) (by omega) (by omega)).2
      rfl⟩
